import Mathlib

/-!
Verification development for the plan-generation and markdown-parsing core of
the bright-ideas backend. Python strings are modelled as lists of characters;
the services in backend/services (ai_service.py and the plan parsing module)
are translated definition by definition below, and the testable properties of the
specification are settled as theorems at the end of the file.
-/

namespace BrightIdeas

/-- Python strings are modelled as lists of characters. -/
abbrev Str := List Char

/-- The apostrophe character. -/
def apos : Char := Char.ofNat 39

/-- The characters stripped by Python str.strip with no argument (ASCII range),
which also coincide with the regex class backslash-s on the inputs at hand. -/
def pyWs (c : Char) : Bool :=
  c = ' ' || c = '\t' || c = '\n' || c = '\r' || c = Char.ofNat 11 || c = Char.ofNat 12

/-- Python str.lstrip. -/
def pyLStrip (l : Str) : Str := l.dropWhile pyWs

/-- Python str.rstrip. -/
def pyRStrip (l : Str) : Str := (l.reverse.dropWhile pyWs).reverse

/-- Python str.strip. -/
def pyStrip (l : Str) : Str := pyLStrip (pyRStrip l)

/-- Python s.split(sep) for a one-character separator: no collapsing of empty
fields, and the empty string splits to one empty field. -/
def splitCh (sep : Char) : Str → List Str
  | [] => [[]]
  | c :: rest =>
    match splitCh sep rest with
    | [] => [[]]
    | h :: t => if c = sep then [] :: h :: t else (c :: h) :: t

/-- Python s.split(sep) for a multi-character separator, fuelled. -/
def splitSubGo (sep : Str) : Nat → Str → List Str
  | 0, l => [l]
  | fuel + 1, l =>
    if sep ≠ [] ∧ sep.isPrefixOf l then
      [] :: splitSubGo sep fuel (l.drop sep.length)
    else
      match l with
      | [] => [[]]
      | c :: rest =>
        match splitSubGo sep fuel rest with
        | [] => [[c]]
        | h :: t => (c :: h) :: t

/-- Python s.split(sep) for a multi-character separator. -/
def pySplitSub (sep : Str) (l : Str) : List Str := splitSubGo sep (l.length + 1) l

/-- Python s.split(sep, 1): split at the first occurrence of sep, or none. -/
def pySplit1 (sep : Str) : Str → Option (Str × Str)
  | [] => none
  | c :: rest =>
    if sep.isPrefixOf (c :: rest) then some ([], (c :: rest).drop sep.length)
    else
      match pySplit1 sep rest with
      | some (a, b) => some (c :: a, b)
      | none => none

/-- Python substring containment, needle in hay. -/
def containsSub (needle : Str) : Str → Bool
  | [] => needle.isEmpty
  | c :: rest => needle.isPrefixOf (c :: rest) || containsSub needle rest

/-- Python str.lower (ASCII). -/
def pyLower (l : Str) : Str := l.map Char.toLower

/-- Python str(n) for a natural number. -/
def natStr (n : Nat) : Str := (Nat.repr n).toList

/-- Python str(i) for an integer. -/
def intStr : Int → Str
  | .ofNat n => natStr n
  | .negSucc n => '-' :: natStr (n + 1)

/-- schemas.PlanStep. -/
structure PlanStep where
  order : Int
  title : Str
  description : Str
  estimated_time : Option Str
deriving Repr, DecidableEq

/-- schemas.PlanResource.  The field named type in the source is called ty here. -/
structure PlanResource where
  title : Str
  url : Option Str
  ty : Str
  description : Option Str
deriving Repr, DecidableEq

/-- schemas.RefinementQuestion. -/
structure RefinementQuestion where
  id : Str
  question : Str
deriving Repr, DecidableEq

/-- The plain dict returned by parse_markdown_plan and _get_fallback_plan. -/
structure PlanDict where
  summary : Str
  steps : List PlanStep
  resources : List PlanResource
deriving Repr, DecidableEq

/-! ## Plan parsing module: step parsing -/

/-- Digits-to-number, as Python int() on a digit string. -/
def natOfDigits (l : Str) : Nat := l.foldl (fun n c => n * 10 + (c.toNat - 48)) 0

/-- The tail regex fragment backslash-s star, dot plus: greedily skip whitespace
and return the rest, backtracking to the last character when the rest is only
whitespace, as the Python regex engine does. -/
def dotStarPlus (l : Str) : Option Str :=
  let rest := l.dropWhile pyWs
  if rest.isEmpty then
    match l.reverse with
    | [] => none
    | c :: _ => some [c]
  else some rest

/-- re.match of the numbered-step pattern digits, dot, ws, rest. -/
def matchNumbered (l : Str) : Option (Nat × Str) :=
  let ds := l.takeWhile Char.isDigit
  if ds.isEmpty then none
  else
    match l.dropWhile Char.isDigit with
    | '.' :: rest =>
      match dotStarPlus rest with
      | some g => some (natOfDigits ds, g)
      | none => none
    | _ => none

/-- re.match of the bullet-step pattern: dash or star, ws, rest. -/
def matchBullet : Str → Option Str
  | [] => none
  | c :: rest => if c = '-' || c = '*' then dotStarPlus rest else none

/-- Backtracking over how many hash marks the header pattern consumes. -/
def matchHeaderGo : Nat → Str → Option Str
  | 0, _ => none
  | k + 1, l =>
    match dotStarPlus (l.drop (k + 1)) with
    | some g => some g
    | none => matchHeaderGo k l

/-- re.match of the heading-step pattern: one to four hash marks, ws, rest. -/
def matchHeader (l : Str) : Option Str :=
  let r := (l.takeWhile (fun c => c = '#')).length
  if r = 0 then none else matchHeaderGo (min 4 r) l

/-- Case-insensitive literal-prefix consumption for the time-estimate regex. -/
def dropPrefixCI : Str → Str → Option Str
  | [], l => some l
  | _ :: _, [] => none
  | p :: ps, c :: cs => if c.toLower = p.toLower then dropPrefixCI ps cs else none

/-- After the opening paren and optional label of the time-estimate regex:
ws star, one or more non-paren characters as group one, closing paren.
Returns the group and the remainder after the match. -/
def parenGroup (r : Str) : Option (Str × Str) :=
  let before := r.takeWhile (fun c => c ≠ ')')
  match r.dropWhile (fun c => c ≠ ')') with
  | ')' :: rem =>
    if before.isEmpty then none
    else
      let g := before.dropWhile pyWs
      if g.isEmpty then
        match before.reverse with
        | [] => none
        | c :: _ => some ([c], rem)
      else some (g, rem)
  | _ => none

/-- Attempt of the whole time-estimate regex at the current position:
open paren, then the label alternatives in order (or no label), then the group. -/
def timeMatchAt : Str → Option (Str × Str)
  | '(' :: rest =>
    (match dropPrefixCI ("time:".toList) rest with
     | some r2 => parenGroup r2
     | none => none) |>.orElse fun _ =>
    (match dropPrefixCI ("duration:".toList) rest with
     | some r2 => parenGroup r2
     | none => none) |>.orElse fun _ =>
    (match dropPrefixCI ("estimate:".toList) rest with
     | some r2 => parenGroup r2
     | none => none) |>.orElse fun _ =>
    parenGroup rest
  | _ => none

/-- re.search of the time-estimate regex: leftmost match, returning group one. -/
def timeSearch : Str → Option Str
  | [] => none
  | c :: rest =>
    match timeMatchAt (c :: rest) with
    | some (g, _) => some g
    | none => timeSearch rest

/-- Fuelled worker for re.sub of the time-estimate regex with empty replacement. -/
def timeSubAllGo : Nat → Str → Str
  | 0, l => l
  | _ + 1, [] => []
  | fuel + 1, c :: rest =>
    match timeMatchAt (c :: rest) with
    | some (_, after) => timeSubAllGo fuel after
    | none => c :: timeSubAllGo fuel rest

/-- re.sub of the time-estimate regex with empty replacement. -/
def timeSubAll (l : Str) : Str := timeSubAllGo l.length l

/-- The separator list of _parse_step_details: dash, colon, en dash, em dash,
each surrounded by spaces where applicable. -/
def sepList : List Str :=
  [(" - ".toList), (": ".toList),
   [' ', Char.ofNat 0x2013, ' '], [' ', Char.ofNat 0x2014, ' ']]

/-- First separator from the list occurring in the text wins; split once there. -/
def firstSepSplit : List Str → Str → Option (Str × Str)
  | [], _ => none
  | sep :: rest, text =>
    if containsSub sep text then pySplit1 sep text else firstSepSplit rest text

/-- re.sub of the anchored leading-marker pattern star-hash-dash, ws, applied to
the title, followed by strip. -/
def stripLeadMarker (t : Str) : Str :=
  match t with
  | c :: rest =>
    if c = '*' || c = '#' || c = '-' then pyStrip (rest.dropWhile pyWs) else pyStrip (c :: rest)
  | [] => []

/-- The step-detail splitter _parse_step_details of the plan parsing module. -/
def parse_step_details (step_text : Str) : Str × Str × Option Str :=
  let p :=
    match timeSearch step_text with
    | some g => (pyStrip (timeSubAll step_text), some (pyStrip g))
    | none => (step_text, none)
  let q :=
    match firstSepSplit sepList p.1 with
    | some (a, b) => (pyStrip a, pyStrip b)
    | none => (p.1, ([] : Str))
  (stripLeadMarker q.1, q.2, p.2)

/-- Scanner state of the loop inside _parse_steps. -/
structure StepScan where
  acc : List PlanStep
  current : Option PlanStep
  order : Int
deriving Repr, DecidableEq

/-- One line of the loop inside _parse_steps. -/
def stepLine (sc : StepScan) (line0 : Str) : StepScan :=
  let line := pyStrip line0
  if line.isEmpty then sc
  else
    match matchNumbered line with
    | some (n, text) =>
      let d := parse_step_details text
      { acc := sc.acc ++ sc.current.toList,
        current := some ⟨Int.ofNat n, d.1, d.2.1, d.2.2⟩,
        order := Int.ofNat n + 1 }
    | none =>
      match matchBullet line with
      | some text =>
        let d := parse_step_details text
        { acc := sc.acc ++ sc.current.toList,
          current := some ⟨sc.order, d.1, d.2.1, d.2.2⟩,
          order := sc.order + 1 }
      | none =>
        match matchHeader line with
        | some text =>
          let d := parse_step_details text
          { acc := sc.acc ++ sc.current.toList,
            current := some ⟨sc.order, d.1, d.2.1, d.2.2⟩,
            order := sc.order + 1 }
        | none =>
          match sc.current with
          | some cur =>
            { sc with current := some { cur with description :=
                if cur.description.isEmpty then line
                else cur.description ++ (" ".toList) ++ line } }
          | none => sc

/-- The step scanner _parse_steps of the plan parsing module. -/
def parse_steps (content : Str) (start_order : Int) : List PlanStep :=
  let sc := (splitCh '\n' content).foldl stepLine { acc := [], current := none, order := start_order }
  sc.acc ++ sc.current.toList

/-! ## Plan parsing module: resource parsing -/

/-- re.sub of the anchored leading-bullet pattern dash-star, ws. -/
def stripBullet (l : Str) : Str :=
  match l with
  | c :: rest => if c = '-' || c = '*' then rest.dropWhile pyWs else c :: rest
  | [] => []

/-- Attempt of the markdown-link regex at the current position:
bracketed text, then parenthesised url.  Returns text, url and remainder. -/
def linkMatchAt : Str → Option (Str × Str × Str)
  | '[' :: r =>
    let t := r.takeWhile (fun c => c ≠ ']')
    (match r.dropWhile (fun c => c ≠ ']') with
     | ']' :: '(' :: r3 =>
       let u := r3.takeWhile (fun c => c ≠ ')')
       (match r3.dropWhile (fun c => c ≠ ')') with
        | ')' :: rem => if t.isEmpty || u.isEmpty then none else some (t, u, rem)
        | _ => none)
     | _ => none)
  | _ => none

/-- re.search of the markdown-link regex. -/
def linkSearch : Str → Option (Str × Str)
  | [] => none
  | c :: rest =>
    match linkMatchAt (c :: rest) with
    | some (t, u, _) => some (t, u)
    | none => linkSearch rest

/-- Fuelled worker for re.sub of the markdown-link regex with empty replacement. -/
def linkSubAllGo : Nat → Str → Str
  | 0, l => l
  | _ + 1, [] => []
  | fuel + 1, c :: rest =>
    match linkMatchAt (c :: rest) with
    | some (_, _, after) => linkSubAllGo fuel after
    | none => c :: linkSubAllGo fuel rest

/-- re.sub of the markdown-link regex with empty replacement. -/
def linkSubAll (l : Str) : Str := linkSubAllGo l.length l

/-- re.sub of the anchored pattern ws, dash, ws applied to the description,
followed by strip. -/
def subLeadDash (d : Str) : Str :=
  match d.dropWhile pyWs with
  | '-' :: rest => pyStrip (rest.dropWhile pyWs)
  | _ => pyStrip d

/-- The resource-type heuristic _detect_resource_type of the plan parsing module. -/
def detect_resource_type (title dsc : Str) : Str :=
  let combined := pyLower (title ++ (" ".toList) ++ dsc)
  if [("api".toList), ("service".toList), ("platform".toList), ("subscription".toList)].any
       (fun w => containsSub w combined) then ("service".toList)
  else if [("library".toList), ("framework".toList), ("tool".toList), ("software".toList),
           ("cli".toList), ("package".toList)].any (fun w => containsSub w combined) then ("tool".toList)
  else if [("article".toList), ("blog".toList), ("tutorial".toList), ("guide".toList),
           ("documentation".toList), ("docs".toList)].any (fun w => containsSub w combined) then ("article".toList)
  else if [("github".toList), ("repo".toList), ("repository".toList), ("code".toList)].any
       (fun w => containsSub w combined) then ("repository".toList)
  else ("tool".toList)

/-- One line of the loop inside _parse_resources. -/
def resourceLine (acc : List PlanResource) (line0 : Str) : List PlanResource :=
  let line := pyStrip line0
  if line.isEmpty then acc
  else if ("#".toList).isPrefixOf line then acc
  else
    let line1 := stripBullet line
    match linkSearch line1 with
    | some (t, u) =>
      let dsc := subLeadDash (pyStrip (linkSubAll line1))
      if t.isEmpty then acc
      else acc ++ [⟨t, some u, detect_resource_type t dsc, some dsc⟩]
    | none =>
      match pySplit1 (" - ".toList) line1 with
      | some (a, b) =>
        let t := pyStrip a
        let dsc := pyStrip b
        if t.isEmpty then acc
        else acc ++ [⟨t, none, detect_resource_type t dsc, some dsc⟩]
      | none =>
        let t := pyStrip line1
        if t.isEmpty then acc
        else acc ++ [⟨t, none, detect_resource_type t ([]), some ([] : Str)⟩]

/-- The resource scanner _parse_resources of the plan parsing module. -/
def parse_resources (content : Str) : List PlanResource :=
  (splitCh '\n' content).foldl resourceLine []

/-! ## Plan parsing module: top level -/

/-- The three section kinds the scanner distinguishes. -/
inductive SectionKind where
  | summary
  | steps
  | resources
deriving Repr, DecidableEq

/-- The loop state of parse_markdown_plan. -/
structure ParseState where
  summary : Str
  steps : List PlanStep
  resources : List PlanResource
  current_section : Option SectionKind
  current_content : List Str
  step_order : Int
deriving Repr, DecidableEq

/-- Section selection from a double-hash header line. -/
def sectionOfHeader (line : Str) : Option SectionKind :=
  let header := pyLower line
  if containsSub ("summary".toList) header then some .summary
  else if [("step".toList), ("implementation".toList), ("plan".toList), ("breakdown".toList)].any
       (fun w => containsSub w header) then some .steps
  else if [("resource".toList), ("tool".toList), ("reference".toList), ("link".toList)].any
       (fun w => containsSub w header) then some .resources
  else none

/-- Flushing the accumulated buffer into the active section, as done both when a
new double-hash header is met and once at end of input.  Note that the source
increments step_order by the length of the whole extended step list. -/
def flushSection (st : ParseState) : ParseState :=
  match st.current_section with
  | none => st
  | some sec =>
    if st.current_content.isEmpty then st
    else
      let body := List.intercalate ("\n".toList) st.current_content
      match sec with
      | .summary => { st with summary := pyStrip body }
      | .steps =>
        let steps2 := st.steps ++ parse_steps body st.step_order
        { st with steps := steps2, step_order := st.step_order + steps2.length }
      | .resources => { st with resources := st.resources ++ parse_resources body }

/-- One line of the main loop of parse_markdown_plan. -/
def processLine (st : ParseState) (line0 : Str) : ParseState :=
  let line := pyStrip line0
  if line.isEmpty then st
  else if ("##".toList).isPrefixOf line then
    let st1 := flushSection st
    { st1 with current_section := sectionOfHeader line, current_content := [] }
  else if ("#".toList).isPrefixOf line then st
  else
    match st.current_section with
    | some _ => { st with current_content := st.current_content ++ [line] }
    | none => st

/-- The initial loop state of parse_markdown_plan. -/
def initState : ParseState :=
  { summary := [], steps := [], resources := [],
    current_section := none, current_content := [], step_order := 1 }

/-- The unstructured fallback _parse_unstructured_content of the plan parsing module. -/
def parse_unstructured_content (content : Str) : PlanDict :=
  let paragraphs := ((pySplitSub ("\n\n".toList) content).map pyStrip).filter (fun p => !p.isEmpty)
  let summary :=
    match paragraphs with
    | [] => ("Uploaded implementation plan".toList)
    | p :: _ => p
  let steps := parse_steps content 1
  let steps :=
    if steps.isEmpty then
      [⟨1, ("Implementation Plan".toList),
        (if content.length > 500 then content.take 500 ++ ("...".toList) else content), none⟩]
    else steps
  { summary := summary, steps := steps, resources := [] }

/-- The default summary synthesis _generate_default_summary of the plan parsing module. -/
def generate_default_summary (content : Str) (steps : List PlanStep) : Str :=
  if !steps.isEmpty then
    ("Implementation plan with ".toList) ++ natStr steps.length ++ (" steps. ".toList) ++
      content.take 100 ++ ("...".toList)
  else
    ("Implementation plan: ".toList) ++ content.take 150 ++ ("...".toList)

/-- The top-level entry parse_markdown_plan of the plan parsing module. -/
def parse_markdown_plan (content : Str) : PlanDict :=
  let lines := splitCh '\n' (pyStrip content)
  let st := flushSection (lines.foldl processLine initState)
  if st.summary.isEmpty && st.steps.isEmpty && st.resources.isEmpty then
    parse_unstructured_content content
  else
    { summary := if st.summary.isEmpty then generate_default_summary content st.steps else st.summary,
      steps := st.steps,
      resources := st.resources }

/-! ## ai_service.py: project-type classification -/

/-- The combined lowercased text blob _detect_project_type classifies.
Answers are an ordered mapping from question id to answer text; an empty
mapping is falsy in the source and contributes nothing. -/
def combinedText (title description : Str) (answers : List (Str × Str)) : Str :=
  let base := pyLower (title ++ (" ".toList) ++ description)
  if answers.isEmpty then base
  else base ++ (" ".toList) ++ pyLower (List.intercalate (" ".toList) (answers.map Prod.snd))

/-- Keyword set for the technical_tool category. -/
def kw_technical_tool : List Str :=
  [("api".toList), ("scrape".toList), ("crawl".toList), ("data pipeline".toList),
   ("etl".toList), ("automation".toList), ("bot".toList), ("script".toList), ("cli".toList)]

/-- Keyword set for the content_creation category. -/
def kw_content_creation : List Str :=
  [("blog".toList), ("content".toList), ("newsletter".toList), ("course".toList),
   ("book".toList), ("writing".toList), ("publish".toList)]

/-- Keyword set for the business_service category. -/
def kw_business_service : List Str :=
  [("marketplace".toList), ("ecommerce".toList), ("subscription".toList),
   ("saas".toList), ("platform".toList), ("service".toList)]

/-- Keyword set for the research_analysis category. -/
def kw_research_analysis : List Str :=
  [("research".toList), ("analysis".toList), ("study".toList), ("survey".toList),
   ("report".toList), ("dashboard".toList)]

/-- Keyword set for the application category. -/
def kw_application : List Str :=
  [("app".toList), ("mobile".toList), ("web app".toList), ("website".toList),
   ("frontend".toList), ("ui".toList)]

/-- Keyword set for the community_platform category. -/
def kw_community_platform : List Str :=
  [("community".toList), ("network".toList), ("forum".toList), ("social".toList),
   ("group".toList)]

/-- All six keyword sets in declaration order. -/
def allKeywordSets : List (List Str) :=
  [kw_technical_tool, kw_content_creation, kw_business_service,
   kw_research_analysis, kw_application, kw_community_platform]

/-- Substring test of any keyword of a set against the text. -/
def anyKw (kws : List Str) (text : Str) : Bool := kws.any (fun w => containsSub w text)

/-- ai_service._detect_project_type: first matching keyword set wins. -/
def detect_project_type (title description : Str) (answers : List (Str × Str)) : Str × Str :=
  let combined := combinedText title description answers
  if anyKw kw_technical_tool combined then (("technical_tool".toList), ("a solutions architect".toList))
  else if anyKw kw_content_creation combined then (("content_creation".toList), ("a content strategist".toList))
  else if anyKw kw_business_service combined then (("business_service".toList), ("a business analyst".toList))
  else if anyKw kw_research_analysis combined then (("research_analysis".toList), ("a research analyst".toList))
  else if anyKw kw_application combined then (("application".toList), ("a product architect".toList))
  else if anyKw kw_community_platform combined then (("community_platform".toList), ("a community strategist".toList))
  else (("general".toList), ("a strategic consultant".toList))

/-- The persona string fixed by each category. -/
def personaFor (category : Str) : Str :=
  if category = ("technical_tool".toList) then ("a solutions architect".toList)
  else if category = ("content_creation".toList) then ("a content strategist".toList)
  else if category = ("business_service".toList) then ("a business analyst".toList)
  else if category = ("research_analysis".toList) then ("a research analyst".toList)
  else if category = ("application".toList) then ("a product architect".toList)
  else if category = ("community_platform".toList) then ("a community strategist".toList)
  else ("a strategic consultant".toList)

/-! ## ai_service.py: fallbacks -/

/-- ai_service._get_fallback_questions. -/
def get_fallback_questions : List RefinementQuestion :=
  [⟨("q1".toList), ("Who are your target users and what specific problem does this solve for them?".toList)⟩,
   ⟨("q2".toList), ("How do you plan to build and deliver this solution?".toList)⟩,
   ⟨("q3".toList), ("What makes your approach different from existing solutions?".toList)⟩,
   ⟨("q4".toList), ("What".toList) ++ [apos] ++ ("s your timeline and what resources do you have available?".toList)⟩]

/-- The technical_tool step skeleton of _get_fallback_plan. -/
def fallback_steps_technical : List PlanStep :=
  [⟨1, ("Data Source Integration".toList), ("Define and connect to required data sources".toList), some ("1 week".toList)⟩,
   ⟨2, ("Core Processing Logic".toList), ("Build the main data transformation or automation logic".toList), some ("2-3 weeks".toList)⟩,
   ⟨3, ("Storage & Output Layer".toList), ("Implement data persistence and output mechanisms".toList), some ("1 week".toList)⟩,
   ⟨4, ("Error Handling & Monitoring".toList), ("Add robust error handling and logging".toList), some ("3-4 days".toList)⟩,
   ⟨5, ("CLI or API Interface".toList), ("Create user interface for the tool".toList), some ("1 week".toList)⟩]

/-- The content_creation step skeleton of _get_fallback_plan. -/
def fallback_steps_content : List PlanStep :=
  [⟨1, ("Content Strategy & Templates".toList), ("Define content types and create templates".toList), some ("3-4 days".toList)⟩,
   ⟨2, ("Creation Workflow".toList), ("Set up tools and processes for content production".toList), some ("1 week".toList)⟩,
   ⟨3, ("Organization System".toList), ("Build categorization and tagging structure".toList), some ("3-4 days".toList)⟩,
   ⟨4, ("Distribution Channels".toList), ("Set up publishing and distribution methods".toList), some ("1 week".toList)⟩,
   ⟨5, ("Analytics & Feedback".toList), ("Implement tracking and audience feedback loops".toList), some ("3-4 days".toList)⟩]

/-- The generic step skeleton of _get_fallback_plan. -/
def fallback_steps_generic : List PlanStep :=
  [⟨1, ("Core Functionality".toList), ("Define and build the main value-delivering features".toList), some ("2-3 weeks".toList)⟩,
   ⟨2, ("User Interface".toList), ("Create the interface for user interaction".toList), some ("1-2 weeks".toList)⟩,
   ⟨3, ("Data Management".toList), ("Set up data storage and retrieval systems".toList), some ("1 week".toList)⟩,
   ⟨4, ("Integration Points".toList), ("Connect with necessary external services".toList), some ("1 week".toList)⟩,
   ⟨5, ("Deployment & Operations".toList), ("Set up hosting and operational processes".toList), some ("3-4 days".toList)⟩]

/-- The two fixed fallback resources. -/
def fallback_resources : List PlanResource :=
  [⟨("Documentation Tool".toList), none, ("tool".toList),
    some ("Use Notion, Obsidian, or similar for project documentation".toList)⟩,
   ⟨("Version Control".toList), none, ("tool".toList),
    some ("Git repository for tracking changes and collaboration".toList)⟩]

/-- The summary string the fallback plan synthesises. -/
def fallbackSummary (title description : Str) : Str :=
  ("Implementation breakdown for ".toList) ++ [apos] ++ title ++ [apos, ':', ' '] ++
    description.take 100 ++
    ("... This is a fallback plan that should be refined with more specific details based on your requirements.".toList)

/-- ai_service._get_fallback_plan. -/
def get_fallback_plan (title description : Str) : PlanDict :=
  let project_type := (detect_project_type title description []).1
  let steps :=
    if project_type = ("technical_tool".toList) then fallback_steps_technical
    else if project_type = ("content_creation".toList) then fallback_steps_content
    else fallback_steps_generic
  { summary := fallbackSummary title description,
    steps := steps,
    resources := fallback_resources }

/-! ## ai_service.py: markdown rendering -/

/-- One step block of generate_markdown; an empty estimated_time is falsy in
the source and suppresses the Estimated Time line. -/
def renderStep (st : PlanStep) : Str :=
  ("### ".toList) ++ intStr st.order ++ (". ".toList) ++ st.title ++ ['\n'] ++
    st.description ++ ['\n'] ++
    (match st.estimated_time with
     | some t => if t.isEmpty then [] else ("**Estimated Time:** ".toList) ++ t ++ ['\n']
     | none => []) ++ ['\n']

/-- One resource bullet of generate_markdown; a missing description renders as
the Python string None. -/
def renderResource (r : PlanResource) : Str :=
  ("- **".toList) ++ r.title ++ ("**".toList) ++
    (match r.url with
     | some u => if u.isEmpty then [] else (" ([Link](".toList) ++ u ++ ("))".toList)
     | none => []) ++
    (" - ".toList) ++
    (match r.description with
     | some d => d
     | none => ("None".toList)) ++ ['\n']

/-- ai_service.generate_markdown. -/
def generate_markdown (plan_data : PlanDict) (idea_title : Str) : Str :=
  ("# ".toList) ++ idea_title ++ (" - Implementation Plan\n\n## Summary\n".toList) ++
    plan_data.summary ++ ("\n\n## Steps\n\n".toList) ++
    (plan_data.steps.map renderStep).flatten ++
    (if plan_data.resources.isEmpty then []
     else ("## Resources\n\n".toList) ++ (plan_data.resources.map renderResource).flatten)

/-! ## ai_service.py: generation with fallback

The generative client is an external collaborator; its behaviour in one call is
either an exception raised out of the transport (error, timeout) or a raw text
response.  Python json.loads is modelled by the fuelled jsonLoads below; the
field accesses and pydantic validations of the source become the extract
functions, whose failure stands for the exceptions the source catches. -/

/-- A JSON value as produced by json.loads.  Non-integral numbers are kept
as raw text since nothing downstream accepts them. -/
inductive Json where
  | null
  | boolVal (b : Bool)
  | intVal (n : Int)
  | numVal (raw : Str)
  | strVal (s : Str)
  | arrVal (xs : List Json)
  | objVal (fields : List (Str × Json))
deriving Repr

/-- Whitespace skipped between JSON tokens. -/
def jSkipWs (l : Str) : Str := l.dropWhile (fun c => c = ' ' || c = '\t' || c = '\n' || c = '\r')

/-- Body of a JSON string literal after the opening quote. -/
def parseStringBody : Nat → Str → Option (Str × Str)
  | 0, _ => none
  | _ + 1, [] => none
  | fuel + 1, c :: rest =>
    if c = '"' then some ([], rest)
    else if c = '\\' then
      match rest with
      | [] => none
      | e :: rest2 =>
        let esc : Option Char :=
          if e = '"' then some '"'
          else if e = '\\' then some '\\'
          else if e = '/' then some '/'
          else if e = 'n' then some '\n'
          else if e = 't' then some '\t'
          else if e = 'r' then some '\r'
          else if e = 'b' then some (Char.ofNat 8)
          else if e = 'f' then some (Char.ofNat 12)
          else none
        match esc with
        | some ch =>
          match parseStringBody fuel rest2 with
          | some (s, rem) => some (ch :: s, rem)
          | none => none
        | none => none
    else
      match parseStringBody fuel rest with
      | some (s, rem) => some (c :: s, rem)
      | none => none

/-- A JSON number token: sign, digits, optional fraction and exponent. -/
def parseNumber (l : Str) : Option (Json × Str) :=
  let p := fun (sgn : Bool) (body : Str) =>
    let ds := body.takeWhile Char.isDigit
    let rest := body.dropWhile Char.isDigit
    if ds.isEmpty then none
    else
      let isPlain :=
        match rest with
        | [] => true
        | c :: _ => !(c = '.' || c = 'e' || c = 'E')
      if isPlain then
        let n : Int := Int.ofNat (natOfDigits ds)
        some (Json.intVal (if sgn then -n else n), rest)
      else
        let frac := rest.takeWhile (fun c => Char.isDigit c || c = '.' || c = 'e' || c = 'E' || c = '+' || c = '-')
        some (Json.numVal ((if sgn then ['-'] else []) ++ ds ++ frac),
              rest.dropWhile (fun c => Char.isDigit c || c = '.' || c = 'e' || c = 'E' || c = '+' || c = '-'))
  match l with
  | '-' :: body => p true body
  | _ => p false l

mutual

/-- One JSON value, fuelled. -/
def parseJsonVal : Nat → Str → Option (Json × Str)
  | 0, _ => none
  | fuel + 1, l =>
    match jSkipWs l with
    | [] => none
    | c :: rest =>
      if c = '"' then
        match parseStringBody fuel rest with
        | some (s, rem) => some (.strVal s, rem)
        | none => none
      else if c = Char.ofNat 123 then
        match parseJsonObj fuel rest with
        | some (fs, rem) => some (.objVal fs, rem)
        | none => none
      else if c = '[' then
        match parseJsonArr fuel rest with
        | some (xs, rem) => some (.arrVal xs, rem)
        | none => none
      else if ("true".toList).isPrefixOf (c :: rest) then some (.boolVal true, (c :: rest).drop 4)
      else if ("false".toList).isPrefixOf (c :: rest) then some (.boolVal false, (c :: rest).drop 5)
      else if ("null".toList).isPrefixOf (c :: rest) then some (.null, (c :: rest).drop 4)
      else parseNumber (c :: rest)

/-- Array items after the opening bracket, fuelled. -/
def parseJsonArr : Nat → Str → Option (List Json × Str)
  | 0, _ => none
  | fuel + 1, l =>
    match jSkipWs l with
    | ']' :: rem => some ([], rem)
    | l2 =>
      match parseJsonVal fuel l2 with
      | some (j, rem) =>
        (match jSkipWs rem with
         | ',' :: rem2 =>
           (match parseJsonArr fuel rem2 with
            | some (xs, rem3) => if xs.isEmpty then none else some (j :: xs, rem3)
            | none => none)
         | ']' :: rem2 => some ([j], rem2)
         | _ => none)
      | none => none

/-- Object fields after the opening brace, fuelled. -/
def parseJsonObj : Nat → Str → Option (List (Str × Json) × Str)
  | 0, _ => none
  | fuel + 1, l =>
    match jSkipWs l with
    | c :: rem =>
      if c = Char.ofNat 125 then some ([], rem)
      else if c = '"' then
        match parseStringBody fuel rem with
        | some (k, rem2) =>
          (match jSkipWs rem2 with
           | ':' :: rem3 =>
             (match parseJsonVal fuel rem3 with
              | some (v, rem4) =>
                (match jSkipWs rem4 with
                 | ',' :: rem5 =>
                   (match parseJsonObj fuel rem5 with
                    | some (fs, rem6) => if fs.isEmpty then none else some ((k, v) :: fs, rem6)
                    | none => none)
                 | c6 :: rem6 =>
                   if c6 = Char.ofNat 125 then some ([(k, v)], rem6) else none
                 | _ => none)
              | none => none)
           | _ => none)
        | none => none
      else none
    | [] => none

end

/-- Python json.loads: a full parse with only trailing whitespace allowed. -/
def jsonLoads (l : Str) : Option Json :=
  match parseJsonVal (l.length + 1) l with
  | some (j, rem) => if (jSkipWs rem).isEmpty then some j else none
  | none => none

/-- Dictionary key lookup; later duplicate keys overwrite earlier ones as in a
Python dict built by json.loads. -/
def jGet (fields : List (Str × Json)) (k : Str) : Option Json :=
  fields.foldl (fun acc kv => if kv.1 = k then some kv.2 else acc) none

/-- One step object of the model response: required integer order, required
string title and description, optional string estimated_time.  A failure stands
for the KeyError or pydantic validation error the source catches. -/
def extractStep (j : Json) : Option PlanStep :=
  match j with
  | .objVal f =>
    match jGet f ("order".toList), jGet f ("title".toList), jGet f ("description".toList) with
    | some (.intVal n), some (.strVal t), some (.strVal dsc) =>
      (match jGet f ("estimated_time".toList) with
       | none => some ⟨n, t, dsc, none⟩
       | some .null => some ⟨n, t, dsc, none⟩
       | some (.strVal e) => some ⟨n, t, dsc, some e⟩
       | some _ => none)
    | _, _, _ => none
  | _ => none

/-- One resource object of the model response: required string title, optional
url and description, type defaulting to tool when absent. -/
def extractResource (j : Json) : Option PlanResource :=
  match j with
  | .objVal f =>
    match jGet f ("title".toList) with
    | some (.strVal t) =>
      let urlR : Option (Option Str) :=
        match jGet f ("url".toList) with
        | none => some none
        | some .null => some none
        | some (.strVal u) => some (some u)
        | some _ => none
      let tyR : Option Str :=
        match jGet f ("type".toList) with
        | none => some ("tool".toList)
        | some (.strVal ty) => some ty
        | some _ => none
      let dR : Option (Option Str) :=
        match jGet f ("description".toList) with
        | none => some none
        | some .null => some none
        | some (.strVal x) => some (some x)
        | some _ => none
      match urlR, tyR, dR with
      | some u, some ty, some dsc => some ⟨t, u, ty, dsc⟩
      | _, _, _ => none
    | _ => none
  | _ => none

/-- The result dict generate_plan builds on success: the summary value is
passed through unvalidated, steps and resources are validated objects. -/
structure GenPlan where
  summary : Json
  steps : List PlanStep
  resources : List PlanResource

/-- The fallback dict viewed as a generation result. -/
def genPlanOfDict (p : PlanDict) : GenPlan := ⟨.strVal p.summary, p.steps, p.resources⟩

/-- The body of generate_plan after json.loads: steps required and iterable,
resources optional defaulting to empty, summary key required. -/
def extractGenPlan (j : Json) : Option GenPlan :=
  match j with
  | .objVal f =>
    match jGet f ("steps".toList) with
    | some (.arrVal xs) =>
      (match xs.mapM extractStep with
       | some steps =>
         let resR : Option (List PlanResource) :=
           match jGet f ("resources".toList) with
           | none => some []
           | some (.arrVal rs) => rs.mapM extractResource
           | some _ => none
         (match resR, jGet f ("summary".toList) with
          | some resources, some s => some ⟨s, steps, resources⟩
          | _, _ => none)
       | none => none)
    | _ => none
  | _ => none

/-- The body of generate_refinement_questions after json.loads: an array of
objects with string id and question fields. -/
def extractQuestions (j : Json) : Option (List RefinementQuestion) :=
  match j with
  | .arrVal xs =>
    xs.mapM (fun q =>
      match q with
      | .objVal f =>
        (match jGet f ("id".toList), jGet f ("question".toList) with
         | some (.strVal i), some (.strVal qt) => some ⟨i, qt⟩
         | _, _ => none)
      | _ => none)
  | _ => none

/-- One call of the generative client: either an exception out of the transport
or a raw text response. -/
inductive ClientBehaviour where
  | raiseExn
  | returns (content : Str)

/-- The failure signals of the generation path: a client exception, a JSON
decode error, or a structural violation of the expected shape. -/
inductive GenFailure where
  | clientFailure
  | jsonDecode
  | badShape
deriving Repr, DecidableEq

/-- Validation of a raw model response into a plan: json.loads of the stripped
text, then the field extraction; every structural violation is a single failure. -/
def parse_plan_response (raw : Str) : Except GenFailure GenPlan :=
  match jsonLoads (pyStrip raw) with
  | none => .error .jsonDecode
  | some j =>
    match extractGenPlan j with
    | none => .error .badShape
    | some p => .ok p

/-- Validation of a raw model response into questions. -/
def parse_questions_response (raw : Str) : Except GenFailure (List RefinementQuestion) :=
  match jsonLoads (pyStrip raw) with
  | none => .error .jsonDecode
  | some j =>
    match extractQuestions j with
    | none => .error .badShape
    | some qs => .ok qs

/-- The try block of generate_refinement_questions. -/
def try_generate_questions : ClientBehaviour → Except GenFailure (List RefinementQuestion)
  | .raiseExn => .error .clientFailure
  | .returns s => parse_questions_response s

/-- The try block of generate_plan. -/
def try_generate_plan : ClientBehaviour → Except GenFailure GenPlan
  | .raiseExn => .error .clientFailure
  | .returns s => parse_plan_response s

/-- ai_service.generate_refinement_questions: every failure of the try block is
caught and replaced by the fallback questions. -/
def generate_refinement_questions (_title _description : Str) (b : ClientBehaviour) :
    Except GenFailure (List RefinementQuestion) :=
  match try_generate_questions b with
  | .ok qs => .ok qs
  | .error _ => .ok get_fallback_questions

/-- ai_service.generate_plan: every failure of the try block is caught and
replaced by the fallback plan for the same title and description. -/
def generate_plan (title description : Str) (_answers : List (Str × Str)) (b : ClientBehaviour) :
    Except GenFailure GenPlan :=
  match try_generate_plan b with
  | .ok p => .ok p
  | .error _ => .ok (genPlanOfDict (get_fallback_plan title description))

/-! ## Helper lemmas -/

theorem splitCh_ne_nil (sep : Char) (l : Str) : splitCh sep l ≠ [] := by
  cases l with
  | nil => simp [splitCh]
  | cons c rest =>
    simp only [splitCh]
    split
    · simp
    · split <;> simp

theorem splitCh_append_cons (a b : Str) (h : '\n' ∉ a) :
    splitCh '\n' (a ++ '\n' :: b) = a :: splitCh '\n' b := by
  induction a with
  | nil =>
    simp only [List.nil_append, splitCh]
    cases h2 : splitCh '\n' b with
    | nil => exact absurd h2 (splitCh_ne_nil '\n' b)
    | cons hd tl => simp
  | cons c cs ih =>
    have hc : c ≠ '\n' := fun he => h (he ▸ List.mem_cons_self c cs)
    have hcs : '\n' ∉ cs := fun hm => h (List.mem_cons_of_mem c hm)
    simp only [List.cons_append, splitCh, List.append_eq]
    rw [ih hcs]
    simp [hc]

theorem dropWhile_append_left (p : Char → Bool) (u v : Str) (h : u.dropWhile p ≠ []) :
    (u ++ v).dropWhile p = u.dropWhile p ++ v := by
  induction u with
  | nil => simp [List.dropWhile] at h
  | cons c cs ih =>
    cases hp : p c with
    | true =>
      have h2 : cs.dropWhile p ≠ [] := by
        simpa [List.dropWhile, hp] using h
      simp [List.dropWhile, hp, ih h2]
    | false => simp [List.dropWhile, hp]

theorem pyRStrip_append (a b : Str) (h : pyRStrip b ≠ []) : pyRStrip (a ++ b) = a ++ pyRStrip b := by
  have h2 : b.reverse.dropWhile pyWs ≠ [] := by
    intro he
    exact h (by simp [pyRStrip, he])
  simp [pyRStrip, List.reverse_append, dropWhile_append_left pyWs b.reverse a.reverse h2]

theorem pyLStrip_cons_false (c : Char) (l : Str) (h : pyWs c = false) :
    pyLStrip (c :: l) = c :: l := by
  simp [pyLStrip, List.dropWhile, h]

theorem filter_head {p : Str → Bool} (l : List Str) (x : Str) (xs : List Str)
    (h : l.filter p = x :: xs) : p x = true := by
  induction l with
  | nil => simp at h
  | cons a as ih =>
    by_cases hp : p a = true
    · rw [List.filter_cons_of_pos hp] at h
      exact (List.cons.injEq _ _ _ _ ▸ h).1 ▸ hp
    · rw [List.filter_cons_of_neg (by simpa using hp)] at h
      exact ih h

/-! ## Round-trip machinery for the fallback plan -/

/-- The two resources obtained by reparsing the rendered fallback plan: the
bold markers survive into the titles and Version Control is reclassified as a
repository because its description contains the word repository. -/
def resourcesAfterRoundTrip : List PlanResource :=
  [⟨("**Documentation Tool**".toList), none, ("tool".toList),
    some ("Use Notion, Obsidian, or similar for project documentation".toList)⟩,
   ⟨("**Version Control**".toList), none, ("repository".toList),
    some ("Git repository for tracking changes and collaboration".toList)⟩]

/-- The rendered resource bullet for the documentation tool. -/
def rtResLine1 : Str :=
  ("- **Documentation Tool** - Use Notion, Obsidian, or similar for project documentation".toList)

/-- The rendered resource bullet for version control. -/
def rtResLine2 : Str :=
  ("- **Version Control** - Git repository for tracking changes and collaboration".toList)

theorem fallbackSummary_cons (t d : Str) :
    fallbackSummary t d =
      'I' :: (("mplementation breakdown for ".toList) ++ [apos] ++ t ++ [apos, ':', ' '] ++
        d.take 100 ++
        ("... This is a fallback plan that should be refined with more specific details based on your requirements.".toList)) := rfl

theorem fallbackSummary_ne_nil (t d : Str) : fallbackSummary t d ≠ [] := by
  rw [fallbackSummary_cons]
  exact List.cons_ne_nil _ _

theorem fallbackSummary_not_hh (t d : Str) :
    ("##".toList).isPrefixOf (fallbackSummary t d) = false := by
  rw [fallbackSummary_cons]
  rfl

theorem fallbackSummary_not_h (t d : Str) :
    ("#".toList).isPrefixOf (fallbackSummary t d) = false := by
  rw [fallbackSummary_cons]
  rfl

theorem fallbackSummary_strip (t d : Str) : pyStrip (fallbackSummary t d) = fallbackSummary t d := by
  have h1 : pyRStrip (fallbackSummary t d) = fallbackSummary t d := by
    unfold fallbackSummary
    rw [pyRStrip_append _ _ (by decide)]
    rw [show pyRStrip (("... This is a fallback plan that should be refined with more specific details based on your requirements.".toList) : Str) = ("... This is a fallback plan that should be refined with more specific details based on your requirements.".toList) from rfl]
  unfold pyStrip
  rw [h1, fallbackSummary_cons]
  exact pyLStrip_cons_false _ _ (by decide)

theorem fallbackSummary_no_nl (t d : Str) (ht : '\n' ∉ t) (hd : '\n' ∉ d) :
    '\n' ∉ fallbackSummary t d := by
  unfold fallbackSummary
  intro hmem
  simp only [List.mem_append] at hmem
  rcases hmem with ((((h1 | h2) | h3) | h4) | h5) | h6
  · exact absurd h1 (by decide)
  · exact absurd h2 (by decide)
  · exact ht h3
  · exact absurd h4 (by decide)
  · exact hd (List.take_subset 100 d h5)
  · exact absurd h6 (by decide)

/-- Scanning the common prefix of the rendered markdown: the single-hash title
line is skipped, the summary section collects the summary line, and the steps
header flushes it into the summary slot. -/
theorem fold_prefix (m : Str) (hm0 : m ≠ []) (hm1 : pyStrip m = m)
    (hm2 : ("##".toList).isPrefixOf m = false) (hm3 : ("#".toList).isPrefixOf m = false)
    (body : List Str) :
    List.foldl processLine initState
      (("# X - Implementation Plan".toList) :: ([] : Str) :: ("## Summary".toList) :: m ::
        ([] : Str) :: ("## Steps".toList) :: ([] : Str) :: body) =
    List.foldl processLine ⟨m, [], [], some .steps, [], 1⟩ body := by
  have hm0' : m.isEmpty = false := by
    cases m with
    | nil => exact absurd rfl hm0
    | cons c cs => rfl
  have hm2' : ¬ (('#' :: '#' :: []) <+: m) := by
    intro hp
    rw [← List.isPrefixOf_iff_prefix] at hp
    rw [show (('#' :: '#' :: []) : Str) = ("##".toList) from rfl] at hp
    rw [hm2] at hp
    exact Bool.false_ne_true hp
  have hm3' : ¬ (('#' :: []) <+: m) := by
    intro hp
    rw [← List.isPrefixOf_iff_prefix] at hp
    rw [show (('#' :: []) : Str) = ("#".toList) from rfl] at hp
    rw [hm3] at hp
    exact Bool.false_ne_true hp
  have e1 : processLine initState ("# X - Implementation Plan".toList) = initState := rfl
  have e2 : processLine initState ([] : Str) = initState := rfl
  have e3 : processLine initState ("## Summary".toList) =
      ⟨[], [], [], some .summary, [], 1⟩ := rfl
  have e4 : processLine ⟨[], [], [], some .summary, [], 1⟩ m =
      ⟨[], [], [], some .summary, [m], 1⟩ := by
    simp [processLine, hm1, hm0', hm2, hm3, hm2', hm3']
  have e5 : processLine ⟨[], [], [], some .summary, [m], 1⟩ ([] : Str) =
      ⟨[], [], [], some .summary, [m], 1⟩ := rfl
  have hb : pyStrip (List.intercalate ("\n".toList) [m]) = m := by
    simp [List.intercalate, hm1]
  have e6' : processLine ⟨[], [], [], some .summary, [m], 1⟩ ("## Steps".toList) =
      ⟨pyStrip (List.intercalate ("\n".toList) [m]), [], [], some .steps, [], 1⟩ := rfl
  have e6 : processLine ⟨[], [], [], some .summary, [m], 1⟩ ("## Steps".toList) =
      ⟨m, [], [], some .steps, [], 1⟩ := by rw [e6', hb]
  have e7 : processLine ⟨m, [], [], some .steps, [], 1⟩ ([] : Str) =
      ⟨m, [], [], some .steps, [], 1⟩ := rfl
  simp only [List.foldl_cons]
  rw [e1, e2, e3, e4, e5, e6, e7]

set_option maxRecDepth 4096 in
/-- The end of every round-trip scan: with the summary landed in its slot, the
step headers rendered with three hashes have reset the section to none and
dropped all step content, and the final flush parses only the resources. -/
theorem parse_via_scan (content m : Str) (body : List Str)
    (hm0 : m ≠ []) (hm1 : pyStrip m = m)
    (hm2 : ("##".toList).isPrefixOf m = false) (hm3 : ("#".toList).isPrefixOf m = false)
    (hlines : splitCh '\n' (pyStrip content) =
      ("# X - Implementation Plan".toList) :: ([] : Str) :: ("## Summary".toList) :: m ::
        ([] : Str) :: ("## Steps".toList) :: ([] : Str) :: body)
    (hbody : List.foldl processLine ⟨m, [], [], some .steps, [], 1⟩ body =
      ⟨m, [], [], some .resources, [rtResLine1, rtResLine2], 1⟩) :
    parse_markdown_plan content = ⟨m, [], resourcesAfterRoundTrip⟩ := by
  have hm0' : m.isEmpty = false := by
    cases m with
    | nil => exact absurd rfl hm0
    | cons c cs => rfl
  have hflush : flushSection ⟨m, [], [], some .resources, [rtResLine1, rtResLine2], 1⟩ =
      ⟨m, [], resourcesAfterRoundTrip, some .resources, [rtResLine1, rtResLine2], 1⟩ := rfl
  simp only [parse_markdown_plan]
  rw [hlines, fold_prefix m hm0 hm1 hm2 hm3 body, hbody, hflush]
  simp only [hm0', Bool.false_and, Bool.false_eq_true, if_false]

/-- The rendered markdown after the summary line for the technical_tool
fallback skeleton. -/
def techTail : Str :=
  ("\n\n## Steps\n\n### 1. Data Source Integration\nDefine and connect to required data sources\n**Estimated Time:** 1 week\n\n### 2. Core Processing Logic\nBuild the main data transformation or automation logic\n**Estimated Time:** 2-3 weeks\n\n### 3. Storage & Output Layer\nImplement data persistence and output mechanisms\n**Estimated Time:** 1 week\n\n### 4. Error Handling & Monitoring\nAdd robust error handling and logging\n**Estimated Time:** 3-4 days\n\n### 5. CLI or API Interface\nCreate user interface for the tool\n**Estimated Time:** 1 week\n\n## Resources\n\n- **Documentation Tool** - Use Notion, Obsidian, or similar for project documentation\n- **Version Control** - Git repository for tracking changes and collaboration\n".toList)

/-- The same text stripped of its trailing newline and its two leading
newlines. -/
def techRest : Str :=
  ("## Steps\n\n### 1. Data Source Integration\nDefine and connect to required data sources\n**Estimated Time:** 1 week\n\n### 2. Core Processing Logic\nBuild the main data transformation or automation logic\n**Estimated Time:** 2-3 weeks\n\n### 3. Storage & Output Layer\nImplement data persistence and output mechanisms\n**Estimated Time:** 1 week\n\n### 4. Error Handling & Monitoring\nAdd robust error handling and logging\n**Estimated Time:** 3-4 days\n\n### 5. CLI or API Interface\nCreate user interface for the tool\n**Estimated Time:** 1 week\n\n## Resources\n\n- **Documentation Tool** - Use Notion, Obsidian, or similar for project documentation\n- **Version Control** - Git repository for tracking changes and collaboration".toList)

/-- The line list of the rendered technical_tool skeleton below the steps
header. -/
def techBody : List Str :=
  [("### 1. Data Source Integration".toList),
   ("Define and connect to required data sources".toList),
   ("**Estimated Time:** 1 week".toList), ([] : Str),
   ("### 2. Core Processing Logic".toList),
   ("Build the main data transformation or automation logic".toList),
   ("**Estimated Time:** 2-3 weeks".toList), ([] : Str),
   ("### 3. Storage & Output Layer".toList),
   ("Implement data persistence and output mechanisms".toList),
   ("**Estimated Time:** 1 week".toList), ([] : Str),
   ("### 4. Error Handling & Monitoring".toList),
   ("Add robust error handling and logging".toList),
   ("**Estimated Time:** 3-4 days".toList), ([] : Str),
   ("### 5. CLI or API Interface".toList),
   ("Create user interface for the tool".toList),
   ("**Estimated Time:** 1 week".toList), ([] : Str),
   ("## Resources".toList), ([] : Str), rtResLine1, rtResLine2]

set_option maxRecDepth 8192 in
/-- Round trip of the fallback plan through the renderer and the parser, on
the technical_tool branch of the classifier. -/
theorem parse_render_technical (t d : Str) (ht : '\n' ∉ t) (hd : '\n' ∉ d)
    (hb : (detect_project_type t d []).1 = ("technical_tool".toList)) :
    parse_markdown_plan (generate_markdown (get_fallback_plan t d) ("X".toList)) =
      ⟨fallbackSummary t d, [], resourcesAfterRoundTrip⟩ := by
  have hfb : get_fallback_plan t d =
      ⟨fallbackSummary t d, fallback_steps_technical, fallback_resources⟩ := by
    simp only [get_fallback_plan]
    rw [if_pos hb]
  have htail : (("\n\n## Steps\n\n".toList) : Str) ++
      ((fallback_steps_technical.map renderStep).flatten ++
        (if (fallback_resources : List PlanResource).isEmpty then ([] : Str)
         else ("## Resources\n\n".toList) ++ (fallback_resources.map renderResource).flatten)) =
      techTail := rfl
  have hgm : generate_markdown (get_fallback_plan t d) ("X".toList) =
      ("# X - Implementation Plan\n\n## Summary\n".toList) ++ (fallbackSummary t d ++ techTail) := by
    rw [hfb]
    unfold generate_markdown
    dsimp only
    simp only [List.append_assoc]
    rw [htail]
    rfl
  have hta : pyRStrip techTail = '\n' :: ('\n' :: techRest) := rfl
  have htb : pyRStrip (fallbackSummary t d ++ techTail) =
      fallbackSummary t d ++ ('\n' :: ('\n' :: techRest)) := by
    rw [pyRStrip_append _ _ (by rw [hta]; exact List.cons_ne_nil _ _), hta]
  have hstrip : pyStrip (generate_markdown (get_fallback_plan t d) ("X".toList)) =
      ("# X - Implementation Plan".toList) ++ '\n' :: (([] : Str) ++ '\n' ::
        (("## Summary".toList) ++ '\n' :: (fallbackSummary t d ++ '\n' :: ('\n' :: techRest)))) := by
    rw [hgm]
    unfold pyStrip
    rw [pyRStrip_append _ _ (by
      rw [htb]
      intro h
      exact (List.cons_ne_nil '\n' ('\n' :: techRest)) (List.append_eq_nil.mp h).2), htb]
    rw [show (("# X - Implementation Plan\n\n## Summary\n".toList) : Str) =
      '#' :: (" X - Implementation Plan\n\n## Summary\n".toList) from rfl]
    rw [List.cons_append]
    rw [pyLStrip_cons_false _ _ (by decide)]
    rfl
  have hlines : splitCh '\n' (pyStrip (generate_markdown (get_fallback_plan t d) ("X".toList))) =
      ("# X - Implementation Plan".toList) :: ([] : Str) :: ("## Summary".toList) ::
        fallbackSummary t d :: ([] : Str) :: ("## Steps".toList) :: ([] : Str) :: techBody := by
    rw [hstrip]
    rw [splitCh_append_cons ("# X - Implementation Plan".toList) _ (by decide)]
    rw [splitCh_append_cons ([] : Str) _ (by decide)]
    rw [splitCh_append_cons ("## Summary".toList) _ (by decide)]
    rw [splitCh_append_cons (fallbackSummary t d) _ (fallbackSummary_no_nl t d ht hd)]
    rw [show splitCh '\n' ('\n' :: techRest) =
      ([] : Str) :: ("## Steps".toList) :: ([] : Str) :: techBody from rfl]
  exact parse_via_scan _ (fallbackSummary t d) techBody
    (fallbackSummary_ne_nil t d) (fallbackSummary_strip t d)
    (fallbackSummary_not_hh t d) (fallbackSummary_not_h t d) hlines rfl

/-- The rendered markdown after the summary line for the content_creation
fallback skeleton. -/
def contentTail : Str :=
  ("\n\n## Steps\n\n### 1. Content Strategy & Templates\nDefine content types and create templates\n**Estimated Time:** 3-4 days\n\n### 2. Creation Workflow\nSet up tools and processes for content production\n**Estimated Time:** 1 week\n\n### 3. Organization System\nBuild categorization and tagging structure\n**Estimated Time:** 3-4 days\n\n### 4. Distribution Channels\nSet up publishing and distribution methods\n**Estimated Time:** 1 week\n\n### 5. Analytics & Feedback\nImplement tracking and audience feedback loops\n**Estimated Time:** 3-4 days\n\n## Resources\n\n- **Documentation Tool** - Use Notion, Obsidian, or similar for project documentation\n- **Version Control** - Git repository for tracking changes and collaboration\n".toList)

/-- The same text stripped of its trailing newline and its two leading
newlines. -/
def contentRest : Str :=
  ("## Steps\n\n### 1. Content Strategy & Templates\nDefine content types and create templates\n**Estimated Time:** 3-4 days\n\n### 2. Creation Workflow\nSet up tools and processes for content production\n**Estimated Time:** 1 week\n\n### 3. Organization System\nBuild categorization and tagging structure\n**Estimated Time:** 3-4 days\n\n### 4. Distribution Channels\nSet up publishing and distribution methods\n**Estimated Time:** 1 week\n\n### 5. Analytics & Feedback\nImplement tracking and audience feedback loops\n**Estimated Time:** 3-4 days\n\n## Resources\n\n- **Documentation Tool** - Use Notion, Obsidian, or similar for project documentation\n- **Version Control** - Git repository for tracking changes and collaboration".toList)

/-- The line list of the rendered content_creation skeleton below the steps
header. -/
def contentBody : List Str :=
  [("### 1. Content Strategy & Templates".toList),
   ("Define content types and create templates".toList),
   ("**Estimated Time:** 3-4 days".toList), ([] : Str),
   ("### 2. Creation Workflow".toList),
   ("Set up tools and processes for content production".toList),
   ("**Estimated Time:** 1 week".toList), ([] : Str),
   ("### 3. Organization System".toList),
   ("Build categorization and tagging structure".toList),
   ("**Estimated Time:** 3-4 days".toList), ([] : Str),
   ("### 4. Distribution Channels".toList),
   ("Set up publishing and distribution methods".toList),
   ("**Estimated Time:** 1 week".toList), ([] : Str),
   ("### 5. Analytics & Feedback".toList),
   ("Implement tracking and audience feedback loops".toList),
   ("**Estimated Time:** 3-4 days".toList), ([] : Str),
   ("## Resources".toList), ([] : Str), rtResLine1, rtResLine2]

set_option maxRecDepth 8192 in
/-- Round trip of the fallback plan through the renderer and the parser, on
the content_creation branch of the classifier. -/
theorem parse_render_content (t d : Str) (ht : '\n' ∉ t) (hd : '\n' ∉ d)
    (hb1 : ¬ (detect_project_type t d []).1 = ("technical_tool".toList))
    (hb2 : (detect_project_type t d []).1 = ("content_creation".toList)) :
    parse_markdown_plan (generate_markdown (get_fallback_plan t d) ("X".toList)) =
      ⟨fallbackSummary t d, [], resourcesAfterRoundTrip⟩ := by
  have hfb : get_fallback_plan t d =
      ⟨fallbackSummary t d, fallback_steps_content, fallback_resources⟩ := by
    simp only [get_fallback_plan]
    rw [if_neg hb1, if_pos hb2]
  have htail : (("\n\n## Steps\n\n".toList) : Str) ++
      ((fallback_steps_content.map renderStep).flatten ++
        (if (fallback_resources : List PlanResource).isEmpty then ([] : Str)
         else ("## Resources\n\n".toList) ++ (fallback_resources.map renderResource).flatten)) =
      contentTail := rfl
  have hgm : generate_markdown (get_fallback_plan t d) ("X".toList) =
      ("# X - Implementation Plan\n\n## Summary\n".toList) ++ (fallbackSummary t d ++ contentTail) := by
    rw [hfb]
    unfold generate_markdown
    dsimp only
    simp only [List.append_assoc]
    rw [htail]
    rfl
  have hta : pyRStrip contentTail = '\n' :: ('\n' :: contentRest) := rfl
  have htb : pyRStrip (fallbackSummary t d ++ contentTail) =
      fallbackSummary t d ++ ('\n' :: ('\n' :: contentRest)) := by
    rw [pyRStrip_append _ _ (by rw [hta]; exact List.cons_ne_nil _ _), hta]
  have hstrip : pyStrip (generate_markdown (get_fallback_plan t d) ("X".toList)) =
      ("# X - Implementation Plan".toList) ++ '\n' :: (([] : Str) ++ '\n' ::
        (("## Summary".toList) ++ '\n' :: (fallbackSummary t d ++ '\n' :: ('\n' :: contentRest)))) := by
    rw [hgm]
    unfold pyStrip
    rw [pyRStrip_append _ _ (by
      rw [htb]
      intro h
      exact (List.cons_ne_nil '\n' ('\n' :: contentRest)) (List.append_eq_nil.mp h).2), htb]
    rw [show (("# X - Implementation Plan\n\n## Summary\n".toList) : Str) =
      '#' :: (" X - Implementation Plan\n\n## Summary\n".toList) from rfl]
    rw [List.cons_append]
    rw [pyLStrip_cons_false _ _ (by decide)]
    rfl
  have hlines : splitCh '\n' (pyStrip (generate_markdown (get_fallback_plan t d) ("X".toList))) =
      ("# X - Implementation Plan".toList) :: ([] : Str) :: ("## Summary".toList) ::
        fallbackSummary t d :: ([] : Str) :: ("## Steps".toList) :: ([] : Str) :: contentBody := by
    rw [hstrip]
    rw [splitCh_append_cons ("# X - Implementation Plan".toList) _ (by decide)]
    rw [splitCh_append_cons ([] : Str) _ (by decide)]
    rw [splitCh_append_cons ("## Summary".toList) _ (by decide)]
    rw [splitCh_append_cons (fallbackSummary t d) _ (fallbackSummary_no_nl t d ht hd)]
    rw [show splitCh '\n' ('\n' :: contentRest) =
      ([] : Str) :: ("## Steps".toList) :: ([] : Str) :: contentBody from rfl]
  exact parse_via_scan _ (fallbackSummary t d) contentBody
    (fallbackSummary_ne_nil t d) (fallbackSummary_strip t d)
    (fallbackSummary_not_hh t d) (fallbackSummary_not_h t d) hlines rfl

/-- The rendered markdown after the summary line for the generic fallback
skeleton. -/
def genericTail : Str :=
  ("\n\n## Steps\n\n### 1. Core Functionality\nDefine and build the main value-delivering features\n**Estimated Time:** 2-3 weeks\n\n### 2. User Interface\nCreate the interface for user interaction\n**Estimated Time:** 1-2 weeks\n\n### 3. Data Management\nSet up data storage and retrieval systems\n**Estimated Time:** 1 week\n\n### 4. Integration Points\nConnect with necessary external services\n**Estimated Time:** 1 week\n\n### 5. Deployment & Operations\nSet up hosting and operational processes\n**Estimated Time:** 3-4 days\n\n## Resources\n\n- **Documentation Tool** - Use Notion, Obsidian, or similar for project documentation\n- **Version Control** - Git repository for tracking changes and collaboration\n".toList)

/-- The same text stripped of its trailing newline and its two leading
newlines. -/
def genericRest : Str :=
  ("## Steps\n\n### 1. Core Functionality\nDefine and build the main value-delivering features\n**Estimated Time:** 2-3 weeks\n\n### 2. User Interface\nCreate the interface for user interaction\n**Estimated Time:** 1-2 weeks\n\n### 3. Data Management\nSet up data storage and retrieval systems\n**Estimated Time:** 1 week\n\n### 4. Integration Points\nConnect with necessary external services\n**Estimated Time:** 1 week\n\n### 5. Deployment & Operations\nSet up hosting and operational processes\n**Estimated Time:** 3-4 days\n\n## Resources\n\n- **Documentation Tool** - Use Notion, Obsidian, or similar for project documentation\n- **Version Control** - Git repository for tracking changes and collaboration".toList)

/-- The line list of the rendered generic skeleton below the steps header. -/
def genericBody : List Str :=
  [("### 1. Core Functionality".toList),
   ("Define and build the main value-delivering features".toList),
   ("**Estimated Time:** 2-3 weeks".toList), ([] : Str),
   ("### 2. User Interface".toList),
   ("Create the interface for user interaction".toList),
   ("**Estimated Time:** 1-2 weeks".toList), ([] : Str),
   ("### 3. Data Management".toList),
   ("Set up data storage and retrieval systems".toList),
   ("**Estimated Time:** 1 week".toList), ([] : Str),
   ("### 4. Integration Points".toList),
   ("Connect with necessary external services".toList),
   ("**Estimated Time:** 1 week".toList), ([] : Str),
   ("### 5. Deployment & Operations".toList),
   ("Set up hosting and operational processes".toList),
   ("**Estimated Time:** 3-4 days".toList), ([] : Str),
   ("## Resources".toList), ([] : Str), rtResLine1, rtResLine2]

set_option maxRecDepth 8192 in
/-- Round trip of the fallback plan through the renderer and the parser, on
the generic branch of the classifier. -/
theorem parse_render_generic (t d : Str) (ht : '\n' ∉ t) (hd : '\n' ∉ d)
    (hb1 : ¬ (detect_project_type t d []).1 = ("technical_tool".toList))
    (hb2 : ¬ (detect_project_type t d []).1 = ("content_creation".toList)) :
    parse_markdown_plan (generate_markdown (get_fallback_plan t d) ("X".toList)) =
      ⟨fallbackSummary t d, [], resourcesAfterRoundTrip⟩ := by
  have hfb : get_fallback_plan t d =
      ⟨fallbackSummary t d, fallback_steps_generic, fallback_resources⟩ := by
    simp only [get_fallback_plan]
    rw [if_neg hb1, if_neg hb2]
  have htail : (("\n\n## Steps\n\n".toList) : Str) ++
      ((fallback_steps_generic.map renderStep).flatten ++
        (if (fallback_resources : List PlanResource).isEmpty then ([] : Str)
         else ("## Resources\n\n".toList) ++ (fallback_resources.map renderResource).flatten)) =
      genericTail := rfl
  have hgm : generate_markdown (get_fallback_plan t d) ("X".toList) =
      ("# X - Implementation Plan\n\n## Summary\n".toList) ++ (fallbackSummary t d ++ genericTail) := by
    rw [hfb]
    unfold generate_markdown
    dsimp only
    simp only [List.append_assoc]
    rw [htail]
    rfl
  have hta : pyRStrip genericTail = '\n' :: ('\n' :: genericRest) := rfl
  have htb : pyRStrip (fallbackSummary t d ++ genericTail) =
      fallbackSummary t d ++ ('\n' :: ('\n' :: genericRest)) := by
    rw [pyRStrip_append _ _ (by rw [hta]; exact List.cons_ne_nil _ _), hta]
  have hstrip : pyStrip (generate_markdown (get_fallback_plan t d) ("X".toList)) =
      ("# X - Implementation Plan".toList) ++ '\n' :: (([] : Str) ++ '\n' ::
        (("## Summary".toList) ++ '\n' :: (fallbackSummary t d ++ '\n' :: ('\n' :: genericRest)))) := by
    rw [hgm]
    unfold pyStrip
    rw [pyRStrip_append _ _ (by
      rw [htb]
      intro h
      exact (List.cons_ne_nil '\n' ('\n' :: genericRest)) (List.append_eq_nil.mp h).2), htb]
    rw [show (("# X - Implementation Plan\n\n## Summary\n".toList) : Str) =
      '#' :: (" X - Implementation Plan\n\n## Summary\n".toList) from rfl]
    rw [List.cons_append]
    rw [pyLStrip_cons_false _ _ (by decide)]
    rfl
  have hlines : splitCh '\n' (pyStrip (generate_markdown (get_fallback_plan t d) ("X".toList))) =
      ("# X - Implementation Plan".toList) :: ([] : Str) :: ("## Summary".toList) ::
        fallbackSummary t d :: ([] : Str) :: ("## Steps".toList) :: ([] : Str) :: genericBody := by
    rw [hstrip]
    rw [splitCh_append_cons ("# X - Implementation Plan".toList) _ (by decide)]
    rw [splitCh_append_cons ([] : Str) _ (by decide)]
    rw [splitCh_append_cons ("## Summary".toList) _ (by decide)]
    rw [splitCh_append_cons (fallbackSummary t d) _ (fallbackSummary_no_nl t d ht hd)]
    rw [show splitCh '\n' ('\n' :: genericRest) =
      ([] : Str) :: ("## Steps".toList) :: ([] : Str) :: genericBody from rfl]
  exact parse_via_scan _ (fallbackSummary t d) genericBody
    (fallbackSummary_ne_nil t d) (fallbackSummary_strip t d)
    (fallbackSummary_not_hh t d) (fallbackSummary_not_h t d) hlines rfl

/-- The fallback plan has five steps on every branch of the classifier. -/
theorem fallback_plan_steps_len (t d : Str) : (get_fallback_plan t d).steps.length = 5 := by
  simp only [get_fallback_plan]
  split
  · rfl
  · split
    · rfl
    · rfl

/-! ## Claim C1: the render and reparse round trip of the fallback plan -/

set_option maxRecDepth 100000 in
/-- C1, counterexample: at title T and description D the fallback plan has
five steps but reparsing its rendered markdown yields none, so the step
count, and with it the order and title lists, is not preserved. -/
theorem c1_counterexample :
    (parse_markdown_plan (generate_markdown (get_fallback_plan ("T".toList) ("D".toList))
        ("X".toList))).steps.length ≠
      (get_fallback_plan ("T".toList) ("D".toList)).steps.length := by decide

set_option maxRecDepth 2048 in
/-- C1, amended: for every newline-free title and description, reparsing the
rendered fallback plan preserves the summary and yields the two resources
with bold markers kept in their titles, but the steps are lost entirely: the
renderer emits each step as a three-hash header, the parser treats any line
starting with two hashes as a section header, none of the step headers
contains a section keyword, so the section becomes none and every step line
is discarded.  The parsed plan has zero steps where the original had five. -/
theorem c1_roundtrip_amended (t d : Str) (ht : '\n' ∉ t) (hd : '\n' ∉ d) :
    parse_markdown_plan (generate_markdown (get_fallback_plan t d) ("X".toList)) =
      ⟨fallbackSummary t d, [], resourcesAfterRoundTrip⟩ ∧
    (parse_markdown_plan (generate_markdown (get_fallback_plan t d) ("X".toList))).steps.length = 0 ∧
    (get_fallback_plan t d).steps.length = 5 := by
  have key : parse_markdown_plan (generate_markdown (get_fallback_plan t d) ("X".toList)) =
      ⟨fallbackSummary t d, [], resourcesAfterRoundTrip⟩ := by
    by_cases hb1 : (detect_project_type t d []).1 = ("technical_tool".toList)
    · exact parse_render_technical t d ht hd hb1
    · by_cases hb2 : (detect_project_type t d []).1 = ("content_creation".toList)
      · exact parse_render_content t d ht hd hb1 hb2
      · exact parse_render_generic t d ht hd hb1 hb2
  exact ⟨key, by rw [key]; rfl, fallback_plan_steps_len t d⟩

/-- C1 witness: the amended round-trip shape at concrete newline-free
inputs. -/
theorem c1_roundtrip_amended_witness :
    parse_markdown_plan (generate_markdown (get_fallback_plan ("T".toList) ("D".toList))
        ("X".toList)) =
      ⟨fallbackSummary ("T".toList) ("D".toList), [], resourcesAfterRoundTrip⟩ ∧
    (parse_markdown_plan (generate_markdown (get_fallback_plan ("T".toList) ("D".toList))
        ("X".toList))).steps.length = 0 ∧
    (get_fallback_plan ("T".toList) ("D".toList)).steps.length = 5 :=
  c1_roundtrip_amended ("T".toList) ("D".toList) (by decide) (by decide)

/-! ## Claim C3: the unstructured example input -/

/-- C3, counterexample: on the input given by the claim the parser returns the
first paragraph, which is the input text itself, as the summary, not the
literal string Uploaded implementation plan. -/
theorem c3_counterexample :
    (parse_markdown_plan ("just some random text with no structure".toList)).summary ≠
      ("Uploaded implementation plan".toList) := by decide

/-- C3, amended: parse_markdown of the unstructured example yields the input
text itself as summary, the literal Uploaded implementation plan appearing only
for content with no nonempty paragraph, and exactly one step titled
Implementation Plan whose description is the whole content. -/
theorem c3_amended :
    (parse_markdown_plan ("just some random text with no structure".toList)).summary =
      ("just some random text with no structure".toList) ∧
    (parse_markdown_plan ("just some random text with no structure".toList)).steps =
      [⟨1, ("Implementation Plan".toList), ("just some random text with no structure".toList), none⟩] ∧
    (parse_markdown_plan ([] : Str)).summary = ("Uploaded implementation plan".toList) := by decide

/-! ## Claim C8: step parsing example -/

/-- C8: parsing the two-step markdown of the claim yields exactly the two
steps with the stated orders, titles, descriptions and time estimate. -/
theorem c8_step_parsing :
    (parse_markdown_plan ("## Steps\n1. Alpha - do a thing (2 hours)\n2. Beta - do another thing".toList)).steps =
      [⟨1, ("Alpha".toList), ("do a thing".toList), some ("2 hours".toList)⟩,
       ⟨2, ("Beta".toList), ("do another thing".toList), none⟩] := by decide

/-! ## Claim C9: resource link extraction example -/

/-- C9: parsing the resource markdown of the claim yields exactly one resource
with the stated title, url, description and type tool. -/
theorem c9_resource_extraction :
    (parse_markdown_plan ("## Resources\n- [Figma](https://figma.com) - design tool".toList)).resources =
      [⟨("Figma".toList), some ("https://figma.com".toList), ("tool".toList), some ("design tool".toList)⟩] := by decide

/-! ## Claim C10: substring keyword matching -/

/-- C10: keyword classification is substring containment on the combined
lowercased text, so a description containing rapid is classified
technical_tool through the embedded api, and one containing happy is
classified application through the embedded app. -/
theorem c10_substring_matching :
    (detect_project_type ([] : Str) ("rapid".toList) []).1 = ("technical_tool".toList) ∧
    (detect_project_type ([] : Str) ("happy".toList) []).1 = ("application".toList) ∧
    containsSub ("api".toList) (combinedText ([] : Str) ("rapid".toList) []) = true ∧
    containsSub ("app".toList) (combinedText ([] : Str) ("happy".toList) []) = true := by decide

/-! ## Claim C4: classifier determinism and priority order -/

/-- C4: the classifier is a pure function of title, description and answers;
any text whose combined blob contains api is classified technical_tool no
matter what else it contains, a blob containing none of the keywords of the
six ordered sets is classified general, and the returned persona is the one
fixed by the returned category. -/
theorem c4_classifier (t d : Str) (a : List (Str × Str)) :
    (containsSub ("api".toList) (combinedText t d a) = true →
      detect_project_type t d a = (("technical_tool".toList), ("a solutions architect".toList))) ∧
    ((∀ kw ∈ allKeywordSets.flatten, containsSub kw (combinedText t d a) = false) →
      detect_project_type t d a = (("general".toList), ("a strategic consultant".toList))) ∧
    (detect_project_type t d a).2 = personaFor (detect_project_type t d a).1 ∧
    (∀ t2 d2 a2, t = t2 → d = d2 → a = a2 →
      detect_project_type t d a = detect_project_type t2 d2 a2) := by
  refine ⟨?_, ?_, ?_, ?_⟩
  · intro h
    have h1 : anyKw kw_technical_tool (combinedText t d a) = true := by
      rw [anyKw, List.any_eq_true]
      exact ⟨("api".toList), by simp [kw_technical_tool], h⟩
    simp [detect_project_type, h1]
  · intro h
    have hall : ∀ s ∈ allKeywordSets, anyKw s (combinedText t d a) = false := by
      intro s hs
      rw [anyKw, List.any_eq_false]
      intro w hw
      simp [h w (List.mem_flatten.mpr ⟨s, hs, hw⟩)]
    simp [detect_project_type,
      hall kw_technical_tool (by simp [allKeywordSets]),
      hall kw_content_creation (by simp [allKeywordSets]),
      hall kw_business_service (by simp [allKeywordSets]),
      hall kw_research_analysis (by simp [allKeywordSets]),
      hall kw_application (by simp [allKeywordSets]),
      hall kw_community_platform (by simp [allKeywordSets])]
  · simp only [detect_project_type]
    split
    · decide
    · split
      · decide
      · split
        · decide
        · split
          · decide
          · split
            · decide
            · split
              · decide
              · decide
  · intro t2 d2 a2 h1 h2 h3
    rw [h1, h2, h3]

/-- C4 witness: a text containing both api and blog is classified
technical_tool, and a keyword-free text is classified general. -/
theorem c4_classifier_witness :
    detect_project_type ("api blog".toList) ([] : Str) [] =
      (("technical_tool".toList), ("a solutions architect".toList)) ∧
    detect_project_type ("xyz".toList) ([] : Str) [] =
      (("general".toList), ("a strategic consultant".toList)) :=
  ⟨(c4_classifier ("api blog".toList) ([] : Str) []).1 (by decide),
   (c4_classifier ("xyz".toList) ([] : Str) []).2.1 (by decide)⟩

/-! ## Claim C7: fallback totality -/

/-- C7: the fallback questions are exactly four with ids q1 to q4, and the
fallback plan has exactly five steps and exactly two resources for every
title and description, including empty ones. -/
theorem c7_fallback_totality (t d : Str) :
    get_fallback_questions.map RefinementQuestion.id =
      [("q1".toList), ("q2".toList), ("q3".toList), ("q4".toList)] ∧
    get_fallback_questions.length = 4 ∧
    (get_fallback_plan t d).steps.length = 5 ∧
    (get_fallback_plan t d).resources.length = 2 := by
  refine ⟨by decide, by decide, ?_, rfl⟩
  simp only [get_fallback_plan]
  split
  · rfl
  · split
    · rfl
    · rfl

/-- C7 witness: the counts at empty title and description. -/
theorem c7_fallback_totality_witness :
    (get_fallback_plan ([] : Str) ([] : Str)).steps.length = 5 ∧
    (get_fallback_plan ([] : Str) ([] : Str)).resources.length = 2 :=
  ⟨(c7_fallback_totality ([] : Str) ([] : Str)).2.2.1,
   (c7_fallback_totality ([] : Str) ([] : Str)).2.2.2⟩

/-! ## Claim C2: parser totality -/

/-- The unstructured fallback always produces at least one step. -/
theorem parse_unstructured_steps_ne (content : Str) :
    (parse_unstructured_content content).steps ≠ [] := by
  unfold parse_unstructured_content
  cases hp : parse_steps content 1 <;> simp [hp]

/-- The unstructured fallback always produces a nonempty summary: the first
nonempty stripped paragraph, or the fixed fallback string. -/
theorem parse_unstructured_summary_ne (content : Str) :
    (parse_unstructured_content content).summary ≠ [] := by
  unfold parse_unstructured_content
  cases hp : ((pySplitSub ("\n\n".toList) content).map pyStrip).filter (fun p => !p.isEmpty) with
  | nil => simp [hp]
  | cons p ps =>
    have h2 := filter_head _ p ps hp
    have h3 : p ≠ [] := by
      intro he
      rw [he] at h2
      simp at h2
    simp [hp, h3]

/-- The synthesised default summary is never empty. -/
theorem generate_default_summary_ne (content : Str) (steps : List PlanStep) :
    generate_default_summary content steps ≠ [] := by
  have h25 : 0 < ("Implementation plan with ".toList).length := by decide
  have h21 : 0 < ("Implementation plan: ".toList).length := by decide
  unfold generate_default_summary
  split <;> apply List.ne_nil_of_length_pos <;> simp [List.length_append]

/-- C2, counterexample: a document with a recognised summary section but no
parseable steps yields a plan with an empty steps list, against the claim
that every input yields at least one step. -/
theorem c2_counterexample :
    (parse_markdown_plan ("## Summary\nhello".toList)).steps = [] ∧
    (parse_markdown_plan ("## Summary\nhello".toList)).summary = ("hello".toList) := by decide

/-- C2, amended: parsing is total by construction and the returned summary is
nonempty for every input string, but the steps list is only guaranteed
nonempty on the unstructured-fallback path; with recognised sections and no
parseable step lines it can be empty. -/
theorem c2_amended (content : Str) :
    (parse_markdown_plan content).summary ≠ [] ∧
    (parse_unstructured_content content).steps ≠ [] := by
  refine ⟨?_, parse_unstructured_steps_ne content⟩
  unfold parse_markdown_plan
  set st := flushSection ((splitCh '\n' (pyStrip content)).foldl processLine initState) with hst
  by_cases h : (st.summary.isEmpty && st.steps.isEmpty && st.resources.isEmpty) = true
  · simp only [h, if_pos]
    exact parse_unstructured_summary_ne content
  · simp only [Bool.not_eq_true] at h
    simp only [h, Bool.false_eq_true, if_false]
    by_cases h2 : st.summary.isEmpty = true
    · simp only [h2, if_pos]
      exact generate_default_summary_ne content st.steps
    · simp only [h2, Bool.false_eq_true, if_false]
      intro he
      rw [List.isEmpty_iff.mpr he] at h2
      exact h2 rfl

/-! ## Claim C5: generation never raises and falls back on failure -/

/-- C5: for every title, description, answers and client behaviour, both
generation functions return a structured result rather than propagating a
failure, and whenever the try block fails for any reason the fallback
content is substituted. -/
theorem c5_generation_total (t d : Str) (a : List (Str × Str)) (bq bp : ClientBehaviour) :
    (∃ qs, generate_refinement_questions t d bq = .ok qs) ∧
    (∃ p, generate_plan t d a bp = .ok p) ∧
    ((try_generate_questions bq).isOk = false →
      generate_refinement_questions t d bq = .ok get_fallback_questions) ∧
    ((try_generate_plan bp).isOk = false →
      generate_plan t d a bp = .ok (genPlanOfDict (get_fallback_plan t d))) := by
  refine ⟨?_, ?_, ?_, ?_⟩
  · cases h : try_generate_questions bq with
    | ok qs => exact ⟨qs, by simp [generate_refinement_questions, h]⟩
    | error e => exact ⟨get_fallback_questions, by simp [generate_refinement_questions, h]⟩
  · cases h : try_generate_plan bp with
    | ok p => exact ⟨p, by simp [generate_plan, h]⟩
    | error e => exact ⟨genPlanOfDict (get_fallback_plan t d), by simp [generate_plan, h]⟩
  · intro h
    cases h2 : try_generate_questions bq with
    | ok qs => rw [h2] at h; simp [Except.isOk, Except.toBool] at h
    | error e => simp [generate_refinement_questions, h2]
  · intro h
    cases h2 : try_generate_plan bp with
    | ok p => rw [h2] at h; simp [Except.isOk, Except.toBool] at h
    | error e => simp [generate_plan, h2]

/-- C5 witness: a client exception on both calls produces the fallback
questions and the fallback plan. -/
theorem c5_generation_total_witness :
    generate_refinement_questions ("t".toList) ("d".toList) .raiseExn = .ok get_fallback_questions ∧
    generate_plan ("t".toList) ("d".toList) [] .raiseExn =
      .ok (genPlanOfDict (get_fallback_plan ("t".toList) ("d".toList))) :=
  ⟨(c5_generation_total ("t".toList) ("d".toList) [] .raiseExn .raiseExn).2.2.1 rfl,
   (c5_generation_total ("t".toList) ("d".toList) [] .raiseExn .raiseExn).2.2.2 rfl⟩

/-! ## Claim C6: validator strictness -/

/-- C6: the plan validator signals a single failure on the object missing the
steps field and on syntactically invalid JSON, and in both cases the caller
observes only the fallback plan, never a partially populated one. -/
theorem c6_validator_strict :
    parse_plan_response ("\x7b\"summary\": \"x\"\x7d".toList) = .error .badShape ∧
    parse_plan_response ("oops not json".toList) = .error .jsonDecode ∧
    jsonLoads ("\x7b\"summary\": \"x\"\x7d".toList) =
      some (.objVal [(("summary".toList), .strVal ("x".toList))]) ∧
    generate_plan ("t".toList) ("d".toList) [] (.returns ("\x7b\"summary\": \"x\"\x7d".toList)) =
      .ok (genPlanOfDict (get_fallback_plan ("t".toList) ("d".toList))) ∧
    generate_plan ("t".toList) ("d".toList) [] (.returns ("oops not json".toList)) =
      .ok (genPlanOfDict (get_fallback_plan ("t".toList) ("d".toList))) :=
  ⟨rfl, rfl, rfl, rfl, rfl⟩

end BrightIdeas
